import Mathlib

/-!
Verification of the legal-document dashboard backend's classification,
heuristic-scoring and query-ranking core.

The Python source is shallowly embedded:
  - strings are Lean `String`s; Python's `needle in haystack` is `strContains`,
    `str.split()` is `pySplit`, `str.lower()` is `pyLower`;
  - Python floats used by the scorers are modelled as exact rationals `ℚ`
    (all constants involved are small decimals);
  - `datetime` values are modelled as numeric timestamps `Nat`; the wall clock
    (`datetime.now()`) is passed explicitly as a `now : Nat` argument;
  - regular-expression matching (Python `re`) is an external collaborator:
    where a function consumes regex results, those results are taken as
    inputs of the embedded function (match counts for the tiered scorers,
    extracted fields for the metadata extractor);
  - Python's stable `list.sort(key=..., reverse=True)` is modelled by a
    stable insertion sort `sortDescBy`.
-/

/-- `listHasPrefix needle hay` is true when `needle` is a prefix of `hay`
(character lists). -/
def listHasPrefix : List Char → List Char → Bool
  | [], _ => true
  | _ :: _, [] => false
  | a :: as, b :: bs => a == b && listHasPrefix as bs

/-- All suffixes of a character list, longest first, ending with `[]`. -/
def charSuffixes : List Char → List (List Char)
  | [] => [[]]
  | a :: t => (a :: t) :: charSuffixes t

/-- Python's substring test `needle in hay` on strings. -/
def strContains (hay needle : String) : Bool :=
  (charSuffixes hay.data).any (fun t => listHasPrefix needle.data t)

/-- `str.lower()`: character-wise lowercasing (kernel-reducible, unlike the
position-based `String.toLower`). -/
def pyLower (s : String) : String :=
  String.mk (s.data.map Char.toLower)

/-- Worker for `pySplit`: split on whitespace runs, dropping empty pieces;
`acc` holds the reversed characters of the word in progress. -/
def splitWsAux : List Char → List Char → List String
  | [], acc => if acc.isEmpty then [] else [String.mk acc.reverse]
  | c :: cs, acc =>
    if c.isWhitespace then
      (if acc.isEmpty then [] else [String.mk acc.reverse]) ++ splitWsAux cs []
    else splitWsAux cs (c :: acc)

/-- Python's `str.split()`: split on whitespace runs, dropping empty pieces. -/
def pySplit (s : String) : List String :=
  splitWsAux s.data []

/-- Worker for `pySplitChar`. -/
def splitCharAux (sep : Char) : List Char → List Char → List String
  | [], acc => [String.mk acc.reverse]
  | c :: cs, acc =>
    if c == sep then String.mk acc.reverse :: splitCharAux sep cs []
    else splitCharAux sep cs (c :: acc)

/-- Python's `str.split(sep)` for a one-character separator (keeps empty
pieces, so `"".split('.') = [""]` and `"a.".split('.') = ["a", ""]`). -/
def pySplitChar (s : String) (sep : Char) : List String :=
  splitCharAux sep s.data []

/-- Python's `str.strip()`: drop leading and trailing whitespace. -/
def pyStrip (s : String) : String :=
  String.mk (((s.data.dropWhile Char.isWhitespace).reverse.dropWhile Char.isWhitespace).reverse)

/-- `sum(1 for term in terms if term in t)`: how many of `terms` occur in `t`. -/
def countPresent (terms : List String) (t : String) : Nat :=
  (terms.filter (fun x => strContains t x)).length

/-- Python's `s.count(c)` for a single character `c`. -/
def countChar (s : String) (c : Char) : Nat :=
  (s.data.filter (fun x => x == c)).length

/-- `m.get(k, 0) + 1` on an insertion-ordered counting dict. -/
def bumpCount (m : List (String × Nat)) (k : String) : List (String × Nat) :=
  if m.any (fun p => p.1 == k) then
    m.map (fun p => if p.1 == k then (p.1, p.2 + 1) else p)
  else
    m ++ [(k, 1)]

/-- Insert `x` into a descending-sorted list, before the first element it is
`ge` to, so that together with `sortDescBy` this is a stable descending sort. -/
def insertDescBy {α : Type} (ge : α → α → Bool) (x : α) : List α → List α
  | [] => [x]
  | y :: ys => if ge x y then x :: y :: ys else y :: insertDescBy ge x ys

/-- Stable descending insertion sort, modelling Python's stable
`list.sort(key=..., reverse=True)`. -/
def sortDescBy {α : Type} (ge : α → α → Bool) : List α → List α
  | [] => []
  | x :: xs => insertDescBy ge x (sortDescBy ge xs)

/-- `AgreementType` enum of `app/models/document.py`. -/
inductive AgreementType
  | NDA | MSA | FRANCHISE | EMPLOYMENT | LEASE | PARTNERSHIP | SUPPLY
  | SERVICE | LICENSING | MERGER | ACQUISITION | JOINT_VENTURE | DISTRIBUTION
  | CONFIDENTIALITY | NON_COMPETE | INTELLECTUAL_PROPERTY | OTHER
deriving DecidableEq, Fintype

/-- The `.value` string of each `AgreementType` member. -/
def AgreementType.value : AgreementType → String
  | .NDA => "NDA"
  | .MSA => "MSA"
  | .FRANCHISE => "Franchise Agreement"
  | .EMPLOYMENT => "Employment Contract"
  | .LEASE => "Lease Agreement"
  | .PARTNERSHIP => "Partnership Agreement"
  | .SUPPLY => "Supply Agreement"
  | .SERVICE => "Service Agreement"
  | .LICENSING => "Licensing Agreement"
  | .MERGER => "Merger Agreement"
  | .ACQUISITION => "Acquisition Agreement"
  | .JOINT_VENTURE => "Joint Venture Agreement"
  | .DISTRIBUTION => "Distribution Agreement"
  | .CONFIDENTIALITY => "Confidentiality Agreement"
  | .NON_COMPETE => "Non-Compete Agreement"
  | .INTELLECTUAL_PROPERTY => "IP Agreement"
  | .OTHER => "Other"

/-- `Jurisdiction` enum of `app/models/document.py`. -/
inductive Jurisdiction
  | UAE | UK | USA | DELAWARE | SINGAPORE | HONG_KONG | GERMANY | FRANCE
  | CANADA | AUSTRALIA | JAPAN | SOUTH_KOREA | INDIA | BRAZIL | MEXICO | OTHER
deriving DecidableEq, Fintype

/-- The `.value` string of each `Jurisdiction` member. -/
def Jurisdiction.value : Jurisdiction → String
  | .UAE => "UAE"
  | .UK => "UK"
  | .USA => "USA"
  | .DELAWARE => "Delaware"
  | .SINGAPORE => "Singapore"
  | .HONG_KONG => "Hong Kong"
  | .GERMANY => "Germany"
  | .FRANCE => "France"
  | .CANADA => "Canada"
  | .AUSTRALIA => "Australia"
  | .JAPAN => "Japan"
  | .SOUTH_KOREA => "South Korea"
  | .INDIA => "India"
  | .BRAZIL => "Brazil"
  | .MEXICO => "Mexico"
  | .OTHER => "Other"

/-- `Industry` enum of `app/models/document.py`. -/
inductive Industry
  | TECHNOLOGY | HEALTHCARE | FINANCE | OIL_GAS | REAL_ESTATE | MANUFACTURING
  | RETAIL | CONSULTING | TELECOMMUNICATIONS | AUTOMOTIVE | AEROSPACE | ENERGY
  | TRANSPORTATION | EDUCATION | MEDIA | OTHER
deriving DecidableEq, Fintype

/-- The `.value` string of each `Industry` member. -/
def Industry.value : Industry → String
  | .TECHNOLOGY => "Technology"
  | .HEALTHCARE => "Healthcare"
  | .FINANCE => "Finance"
  | .OIL_GAS => "Oil & Gas"
  | .REAL_ESTATE => "Real Estate"
  | .MANUFACTURING => "Manufacturing"
  | .RETAIL => "Retail"
  | .CONSULTING => "Consulting"
  | .TELECOMMUNICATIONS => "Telecommunications"
  | .AUTOMOTIVE => "Automotive"
  | .AEROSPACE => "Aerospace"
  | .ENERGY => "Energy"
  | .TRANSPORTATION => "Transportation"
  | .EDUCATION => "Education"
  | .MEDIA => "Media & Entertainment"
  | .OTHER => "Other"

/-- `Geography` enum of `app/models/document.py`. -/
inductive Geography
  | MIDDLE_EAST | EUROPE | NORTH_AMERICA | ASIA_PACIFIC | AFRICA
  | SOUTH_AMERICA | CENTRAL_AMERICA | CARIBBEAN | OCEANIA | OTHER
deriving DecidableEq

/-- The `.value` string of each `Geography` member. -/
def Geography.value : Geography → String
  | .MIDDLE_EAST => "Middle East"
  | .EUROPE => "Europe"
  | .NORTH_AMERICA => "North America"
  | .ASIA_PACIFIC => "Asia Pacific"
  | .AFRICA => "Africa"
  | .SOUTH_AMERICA => "South America"
  | .CENTRAL_AMERICA => "Central America"
  | .CARIBBEAN => "Caribbean"
  | .OCEANIA => "Oceania"
  | .OTHER => "Other"

/-- `RiskLevel` enum of `app/models/document.py`. -/
inductive RiskLevel
  | LOW | MEDIUM | HIGH | CRITICAL
deriving DecidableEq, Fintype

/-- The `.value` string of each `RiskLevel` member (title case in the source). -/
def RiskLevel.value : RiskLevel → String
  | .LOW => "Low"
  | .MEDIUM => "Medium"
  | .HIGH => "High"
  | .CRITICAL => "Critical"

/-- `risk_level.value.upper()` as used by the dashboard builder. -/
def RiskLevel.upperValue : RiskLevel → String
  | .LOW => "LOW"
  | .MEDIUM => "MEDIUM"
  | .HIGH => "HIGH"
  | .CRITICAL => "CRITICAL"

/-- `ComplianceStatus` enum of `app/models/document.py`. -/
inductive ComplianceStatus
  | COMPLIANT | NON_COMPLIANT | PENDING_REVIEW | REQUIRES_ACTION
deriving DecidableEq

/-- The `.value` string of each `ComplianceStatus` member. -/
def ComplianceStatus.value : ComplianceStatus → String
  | .COMPLIANT => "Compliant"
  | .NON_COMPLIANT => "Non-Compliant"
  | .PENDING_REVIEW => "Pending Review"
  | .REQUIRES_ACTION => "Requires Action"

/-- `DocumentMetadata` of `app/models/document.py` (datetimes as `Nat`
timestamps; the enhanced list fields unused by the core are omitted). -/
structure DocumentMetadata where
  filename : String
  file_size : Nat
  file_type : String
  upload_date : Option Nat
  agreement_type : Option AgreementType
  jurisdiction : Option Jurisdiction
  industry : Option Industry
  geography : Option Geography
  governing_law : Option String
  parties : List String
  effective_date : Option Nat
  expiration_date : Option Nat
  value : Option ℚ
  currency : Option String
deriving DecidableEq

/-- `AIInsights` of `app/models/document.py`. -/
structure AIInsights where
  summary : Option String
  key_terms : List String
  risk_assessment : Option RiskLevel
  compliance_status : Option ComplianceStatus
  business_impact : Option String
  recommendations : List String
  confidence_score : ℚ
  extracted_entities : List (String × List String)
  sentiment_analysis : Option String
  complexity_score : Option ℚ
deriving DecidableEq

/-- `Document` of `app/models/document.py` (raw content bytes omitted). -/
structure Document where
  id : String
  metadata : DocumentMetadata
  extracted_text : String
  processing_status : String
  created_at : Nat
  updated_at : Nat
  ai_insights : Option AIInsights
  confidence_score : Option ℚ
  processing_errors : List String
deriving DecidableEq

/-- The query-analysis dict produced by `QueryService._analyze_enhanced_query`,
as consumed by the ranker. -/
structure QueryAnalysis where
  intent : String
  entities : List String
  confidence : ℚ
  comparison_requested : Bool
  analysis_requested : Bool
  summary_requested : Bool
deriving DecidableEq

/-- The structured-filter dict of a `QueryRequest` (date bounds pre-parsed to
timestamps; an unparsable bound is `none`, matching the silent `except`). -/
structure QueryFilters where
  agreement_type : Option String
  jurisdiction : Option String
  industry : Option String
  geography : Option String
  file_type : Option String
  date_from : Option Nat
  date_to : Option Nat
deriving DecidableEq

/-- `AIAnalyzer._assess_risk_level` of `app/services/ai_analyzer.py`, after the
regex counting loop: `high`, `medium`, `low` are the total `re.findall` match
counts of the three risk pattern tiers and `wordCount` is `len(text.split())`.
When `wordCount > 0` each count is multiplied by `100 / wordCount`; then the
fixed thresholds bucket the result. -/
def assessRiskLevel (high medium low wordCount : Nat) : RiskLevel :=
  let hr : ℚ := if 0 < wordCount then (high : ℚ) * (100 / (wordCount : ℚ)) else (high : ℚ)
  let mr : ℚ := if 0 < wordCount then (medium : ℚ) * (100 / (wordCount : ℚ)) else (medium : ℚ)
  let _lr : ℚ := if 0 < wordCount then (low : ℚ) * (100 / (wordCount : ℚ)) else (low : ℚ)
  if 3 < hr then RiskLevel.HIGH
  else if 2 < mr ∨ (3 / 2 : ℚ) < hr then RiskLevel.MEDIUM
  else RiskLevel.LOW

/-- Modelled from the spec: the risk bucketing as the spec words it, with
`rate = count * 100 / wordCount` and `rate = 0` when `wordCount = 0`
(no division), to be compared with `assessRiskLevel` from the source. -/
def riskBucketSpec (high medium wordCount : Nat) : RiskLevel :=
  let hr : ℚ := if wordCount = 0 then 0 else (high : ℚ) * 100 / (wordCount : ℚ)
  let mr : ℚ := if wordCount = 0 then 0 else (medium : ℚ) * 100 / (wordCount : ℚ)
  if 3 < hr then RiskLevel.HIGH
  else if 2 < mr ∨ (3 / 2 : ℚ) < hr then RiskLevel.MEDIUM
  else RiskLevel.LOW

/-- The `legal_indicators` list of `AIAnalyzer._calculate_confidence_score`. -/
def legalIndicators : List String :=
  ["contract", "agreement", "terms", "conditions", "clause", "section"]

/-- The `business_indicators` list of `AIAnalyzer._calculate_confidence_score`. -/
def businessIndicators : List String :=
  ["party", "parties", "obligation", "liability", "payment", "delivery"]

/-- Document-length bonus of `AIAnalyzer._calculate_confidence_score`. -/
def lengthBonus (wc : Nat) : ℚ :=
  if 2000 < wc then 0.25
  else if 1000 < wc then 0.20
  else if 500 < wc then 0.15
  else if 200 < wc then 0.10
  else 0.05

/-- Key-terms bonus of `AIAnalyzer._calculate_confidence_score`. -/
def keyTermBonus (k : Nat) : ℚ :=
  if 8 < k then 0.20
  else if 5 < k then 0.15
  else if 3 < k then 0.10
  else if 1 < k then 0.05
  else 0

/-- Legal-indicator bonus of `AIAnalyzer._calculate_confidence_score`. -/
def legalIndicatorBonus (c : Nat) : ℚ :=
  if 3 < c then 0.15 else if 1 < c then 0.10 else 0

/-- Business-indicator bonus of `AIAnalyzer._calculate_confidence_score`. -/
def businessIndicatorBonus (c : Nat) : ℚ :=
  if 2 < c then 0.10 else if 0 < c then 0.05 else 0

/-- Structure-and-formatting bonus of `AIAnalyzer._calculate_confidence_score`:
`+0.05` for more than 10 periods and `+0.05` for more than 5 newlines. -/
def structureBonus (dots newlines : Nat) : ℚ :=
  (if 10 < dots then 0.05 else 0) + (if 5 < newlines then 0.05 else 0)

/-- `AIAnalyzer._calculate_confidence_score` of `app/services/ai_analyzer.py`:
base 0.4, plus the tiered bonuses, capped at 0.95. -/
def calculateConfidenceScore (text : String) (keyTerms : List String) : ℚ :=
  min (0.4 + lengthBonus (pySplit text).length
        + keyTermBonus keyTerms.length
        + legalIndicatorBonus (countPresent legalIndicators (pyLower text))
        + businessIndicatorBonus (countPresent businessIndicators (pyLower text))
        + structureBonus (countChar text '.') (countChar text '\n'))
      0.95

/-- The `legal_terms` list of `AIAnalyzer._calculate_complexity_score`. -/
def complexityLegalTerms : List String :=
  ["contract", "agreement", "clause", "section", "party", "obligation", "liability"]

/-- Average sentence length of `AIAnalyzer._calculate_complexity_score`:
sentences are the pieces of `text.split('.')`, the average is the total word
count over `max(len(sentences), 1)`. -/
def avgSentenceLength (text : String) : ℚ :=
  let sentences := pySplitChar text '.'
  ((sentences.map (fun s => ((pySplit s).length : ℚ))).sum) / ((max sentences.length 1 : Nat) : ℚ)

/-- Sentence-length bonus of `AIAnalyzer._calculate_complexity_score`. -/
def sentenceLengthBonus (avg : ℚ) : ℚ :=
  if 25 < avg then 0.3 else if 15 < avg then 0.2 else 0

/-- Legal-term-count bonus of `AIAnalyzer._calculate_complexity_score`. -/
def complexTermBonus (c : Nat) : ℚ :=
  if 10 < c then 0.2 else if 5 < c then 0.1 else 0

/-- `AIAnalyzer._calculate_complexity_score` of `app/services/ai_analyzer.py`:
base 0.5, plus sentence-length and legal-term bonuses, capped at 1.0. -/
def calculateComplexityScore (text : String) : ℚ :=
  min (0.5 + sentenceLengthBonus (avgSentenceLength text)
        + complexTermBonus (countPresent complexityLegalTerms text))
      1

/-- The fixed fallback `AIInsights` built by the `except` branch of
`AIAnalyzer._generate_basic_ai_insights`. -/
def fallbackInsights : AIInsights :=
  { summary := some "Basic analysis completed"
    key_terms := ["Legal", "Document"]
    risk_assessment := some RiskLevel.LOW
    compliance_status := some ComplianceStatus.COMPLIANT
    business_impact := some "Standard impact"
    recommendations := ["Review manually"]
    confidence_score := 0.3
    extracted_entities := []
    sentiment_analysis := some "Unknown"
    complexity_score := some 0.5 }

/-- `AIAnalyzer._generate_basic_ai_insights` of `app/services/ai_analyzer.py`.
The `try` body (key-term extraction, tiered scoring, confidence computation)
is modelled by its outcome `tryBody`: `Except.ok` carries the insights it
builds, `Except.error` models any internal exception, which the function's
own `except` branch swallows, returning the fixed fallback bundle. -/
def generateBasicAIInsights (tryBody : Except String AIInsights) : AIInsights :=
  match tryBody with
  | Except.ok i => i
  | Except.error _ => fallbackInsights

/-- `AIAnalyzer.enhance_document` of `app/services/ai_analyzer.py`: attaches
the generated insights and mirrors their confidence score onto the document.
Scoring faults are already caught inside `generateBasicAIInsights`, so on
that path the document's `processing_errors` list is left untouched; the
outer `except` of `enhance_document` only fires for exceptions that escape
the insight generator. -/
def enhanceDocument (d : Document) (tryBody : Except String AIInsights) : Document :=
  let i := generateBasicAIInsights tryBody
  { d with ai_insights := some i, confidence_score := some i.confidence_score }

/-- The "Enhanced metadata scoring" block of
`QueryService._filter_documents_enhanced`: exact containment of a categorical
label in the lowered question, partial token overlap, and the generic-term
fallback lists, with the weights 8/5/2 (agreement type), 8/5/2 (jurisdiction),
6/4 (industry), 6/4 (geography). -/
def metadataScore (qLower : String) (qWords : List String) (m : DocumentMetadata) : ℚ :=
  (match m.agreement_type with
   | some a =>
     let al := pyLower a.value
     if strContains qLower al then 8
     else if qWords.any (fun w => strContains al w) then 5
     else if (["contract", "agreement", "nda", "msa"].any (fun w => strContains al w)) then 2
     else 0
   | none => 0)
  + (match m.jurisdiction with
     | some j =>
       let jl := pyLower j.value
       if strContains qLower jl then 8
       else if qWords.any (fun w => strContains jl w) then 5
       else if (["uk", "usa", "uae", "singapore"].any (fun w => strContains jl w)) then 2
       else 0
     | none => 0)
  + (match m.industry with
     | some i =>
       let il := pyLower i.value
       if strContains qLower il then 6
       else if qWords.any (fun w => strContains il w) then 4
       else 0
     | none => 0)
  + (match m.geography with
     | some g =>
       let gl := pyLower g.value
       if strContains qLower gl then 6
       else if qWords.any (fun w => strContains gl w) then 4
       else 0
     | none => 0)

/-- The "Enhanced content scoring" block of
`QueryService._filter_documents_enhanced`: +4 for governing-law containment
(guarded by Python truthiness of the field), +3 per party name contained in
the question. -/
def contentScore (qLower : String) (m : DocumentMetadata) : ℚ :=
  (match m.governing_law with
   | some gl => if gl ≠ "" && strContains qLower (pyLower gl) then 4 else 0
   | none => 0)
  + 3 * ((m.parties.filter (fun p => strContains qLower (pyLower p))).length : ℚ)

/-- The "Risk-based scoring" block of `QueryService._filter_documents_enhanced`,
verbatim: the question must contain "risk", and the tier comparison is made
against the literal strings `"HIGH"`/`"LOW"`/`"MEDIUM"` exactly as the source
writes them. -/
def riskTierBonus (qLower : String) (ins : AIInsights) : ℚ :=
  match ins.risk_assessment with
  | some r =>
    if strContains qLower "risk" then
      if strContains qLower "high" && (r.value == "HIGH") then 4
      else if strContains qLower "low" && (r.value == "LOW") then 4
      else if strContains qLower "medium" && (r.value == "MEDIUM") then 4
      else 0
    else 0
  | none => 0

/-- The "Compliance-based scoring" block of
`QueryService._filter_documents_enhanced`, verbatim: the question must contain
"compliance", and the status comparison is made against the literal strings
`"COMPLIANT"`/`"NON_COMPLIANT"`/`"PENDING_REVIEW"` exactly as the source
writes them. -/
def complianceTierBonus (qLower : String) (ins : AIInsights) : ℚ :=
  match ins.compliance_status with
  | some c =>
    if strContains qLower "compliance" then
      if strContains qLower "compliant" && (c.value == "COMPLIANT") then 4
      else if strContains qLower "non" && strContains qLower "compliant"
              && (c.value == "NON_COMPLIANT") then 4
      else if strContains qLower "pending" && (c.value == "PENDING_REVIEW") then 4
      else 0
    else 0
  | none => 0

/-- The "AI insights scoring" block of `QueryService._filter_documents_enhanced`:
+3 flat for analysis queries when insights are present, plus the risk and
compliance tier bonuses. -/
def aiScore (qLower : String) (analysisRequested : Bool) (insOpt : Option AIInsights) : ℚ :=
  match insOpt with
  | some ins =>
    (if analysisRequested then 3 else 0)
      + riskTierBonus qLower ins + complianceTierBonus qLower ins
  | none => 0

/-- The "Text content relevance" block of
`QueryService._filter_documents_enhanced`: +2 per captured entity contained in
the lowered text, +0.5 per distinct overlapping significant word when the
question has more than 3 of them, and the document-length bonus. -/
def textScore (qWords : List String) (entities : List String)
    (text : String) : ℚ :=
  if text ≠ "" then
    let tLower := pyLower text
    2 * ((entities.filter (fun e => strContains tLower (pyLower e))).length : ℚ)
    + (if 3 < qWords.length then
         let tWords := (pySplit tLower).dedup
         (1 / 2 : ℚ) * ((qWords.filter (fun w => tWords.contains w)).length : ℚ)
       else 0)
    + (if 1000 < tLower.length then 1 else if 500 < tLower.length then (1 / 2 : ℚ) else 0)
  else 0

/-- The "Intent-specific scoring" block of
`QueryService._filter_documents_enhanced`: +2 for a summary-request intent when
the document has a (truthy) AI summary, +1 for a trend-analysis intent when an
upload date is present. -/
def intentScore (intent : String) (insOpt : Option AIInsights) (uploadDate : Option Nat) : ℚ :=
  (if intent == "summary_request" then
     match insOpt with
     | some ins =>
       match ins.summary with
       | some s => if s ≠ "" then 2 else 0
       | none => 0
     | none => 0
   else 0)
  + (if intent == "trend_analysis" then (if uploadDate.isSome then 1 else 0) else 0)

/-- The significant-word set of `QueryService._filter_documents_enhanced`:
lowered question words of length > 2, as a set (deduplicated). -/
def questionWords (question : String) : List String :=
  (((pySplit question).filter (fun w => 2 < w.length)).map pyLower).dedup

/-- The per-document additive relevance score of
`QueryService._filter_documents_enhanced` (sum of its scoring blocks). -/
def docScore (question : String) (qa : QueryAnalysis) (d : Document) : ℚ :=
  let qLower := pyLower question
  let qWords := questionWords question
  metadataScore qLower qWords d.metadata
    + contentScore qLower d.metadata
    + aiScore qLower qa.analysis_requested d.ai_insights
    + textScore qWords qa.entities d.extracted_text
    + intentScore qa.intent d.ai_insights d.metadata.upload_date

/-- Python truthiness of an optional filter string. -/
def filterTruthy : Option String → Bool
  | some s => s ≠ ""
  | none => false

/-- `any(filters.values())` of `QueryService._apply_filters`. -/
def hasAnyFilter (f : QueryFilters) : Bool :=
  filterTruthy f.agreement_type || filterTruthy f.jurisdiction
    || filterTruthy f.industry || filterTruthy f.geography
    || filterTruthy f.file_type || f.date_from.isSome || f.date_to.isSome

/-- One categorical check of `QueryService._apply_filters`: the document is
excluded only when the filter value is truthy, the document has the field,
and the values differ. -/
def fieldOk (fv : Option String) (dv : Option String) : Bool :=
  match fv, dv with
  | some s, some v => if s ≠ "" then v == s else true
  | _, _ => true

/-- The per-document predicate of `QueryService._apply_filters`. -/
def keepDoc (f : QueryFilters) (d : Document) : Bool :=
  fieldOk f.agreement_type (d.metadata.agreement_type.map AgreementType.value)
  && fieldOk f.jurisdiction (d.metadata.jurisdiction.map Jurisdiction.value)
  && fieldOk f.industry (d.metadata.industry.map Industry.value)
  && fieldOk f.geography (d.metadata.geography.map Geography.value)
  && (match f.file_type with
      | some s =>
        if s ≠ "" && d.metadata.file_type ≠ "" then
          pyLower d.metadata.file_type == pyLower s
        else true
      | none => true)
  && (match f.date_from, d.metadata.upload_date with
      | some lo, some up => !(up < lo)
      | _, _ => true)
  && (match f.date_to, d.metadata.upload_date with
      | some hi, some up => !(hi < up)
      | _, _ => true)

/-- The `if filters and any(filters.values()): documents = _apply_filters(...)`
step of `QueryService._filter_documents_enhanced` (`none` models an absent or
empty filter dict). -/
def preFilter (docs : List Document) (f : Option QueryFilters) : List Document :=
  match f with
  | some ff => if hasAnyFilter ff then docs.filter (keepDoc ff) else docs
  | none => docs

/-- The fast-path condition of `QueryService._filter_documents_enhanced`:
no captured entities and a `general_search` intent. -/
def fastPathCond (qa : QueryAnalysis) : Bool :=
  qa.entities.isEmpty && (qa.intent == "general_search")

/-- The scored path of `QueryService._filter_documents_enhanced`: keep
documents with positive score paired with their score, sort stably by
descending score, truncate to `min(30, len(filtered))`, drop the scores. -/
def scoredRanking (question : String) (qa : QueryAnalysis) (docs : List Document) :
    List Document :=
  let scored := docs.filterMap (fun d =>
    if 0 < docScore question qa d then some (d, docScore question qa d) else none)
  let sorted := sortDescBy (fun a b => decide (b.2 ≤ a.2)) scored
  (sorted.take (min 30 sorted.length)).map Prod.fst

/-- `QueryService._filter_documents_enhanced` of `app/services/query_service.py`:
structured filters first, then either the bounded fast-path prefix of 20
documents or the scored ranking truncated to 30. -/
def filterDocumentsEnhanced (question : String) (docs : List Document)
    (qa : QueryAnalysis) (f : Option QueryFilters) : List Document :=
  if fastPathCond qa then (preFilter docs f).take 20
  else scoredRanking question qa (preFilter docs f)

/-- The agreement-type value list of `QueryService._find_similarities`:
`[doc.metadata.agreement_type.value for doc in documents if set]`. -/
def agreementValues (docs : List Document) : List String :=
  docs.filterMap (fun d => d.metadata.agreement_type.map AgreementType.value)

/-- The jurisdiction value list of `QueryService._find_similarities`. -/
def jurisdictionValues (docs : List Document) : List String :=
  docs.filterMap (fun d => d.metadata.jurisdiction.map Jurisdiction.value)

/-- The industry value list of `QueryService._find_similarities`. -/
def industryValues (docs : List Document) : List String :=
  docs.filterMap (fun d => d.metadata.industry.map Industry.value)

/-- The risk-level value list of `QueryService._find_similarities`:
documents contribute only when `doc.ai_insights and doc.ai_insights.risk_assessment`. -/
def riskValues (docs : List Document) : List String :=
  docs.filterMap (fun d =>
    (d.ai_insights.bind (fun i => i.risk_assessment)).map RiskLevel.value)

/-- `QueryService._find_similarities` of `app/services/query_service.py`:
for each dimension, a statement is appended when the distinct values among the
documents that have the dimension set number exactly one (`len(set(...)) == 1`). -/
def findSimilarities (docs : List Document) : List String :=
  (if (agreementValues docs).dedup.length == 1 then
     ["All documents are " ++ (agreementValues docs).headD "" ++ " agreements"]
   else [])
  ++ (if (jurisdictionValues docs).dedup.length == 1 then
        ["All documents are governed by " ++ (jurisdictionValues docs).headD "" ++ " law"]
      else [])
  ++ (if (industryValues docs).dedup.length == 1 then
        ["All documents are in the " ++ (industryValues docs).headD "" ++ " industry"]
      else [])
  ++ (if (riskValues docs).dedup.length == 1 then
        ["All documents have " ++ (riskValues docs).headD "" ++ " risk level"]
      else [])

/-- The regex-derived extraction results consumed by
`DocumentProcessor._extract_metadata`; each field is the outcome of the
corresponding first-match-wins pattern scan over the text (an external
collaborator in this embedding, deterministic in the text). `dateMatch` is the
captured group of the first matching effective-date pattern, if any. -/
structure RegexExtraction where
  agreement_type : Option AgreementType
  jurisdiction : Option Jurisdiction
  industry : Option Industry
  geography : Option Geography
  governing_law : Option String
  parties : List String
  dateMatch : Option String
  value : Option ℚ
  currency : Option String
deriving DecidableEq

/-- `DocumentProcessor._extract_effective_date` of
`app/services/document_processor.py`: when one of the date patterns matches,
the captured date string is bound (`date_str = match.group(1)`) but then
ignored, and the function returns `datetime.now()` — the current wall-clock
time `now`, not a value derived from the text. -/
def extractEffectiveDate (now : Nat) (dateMatch : Option String) : Option Nat :=
  match dateMatch with
  | some _ => some now
  | none => none

/-- `DocumentProcessor._extract_metadata` of
`app/services/document_processor.py`: structural fields from the file path and
byte size, `upload_date = datetime.now()`, and — only when the extracted text
is non-empty after stripping — the pattern-derived classification fields,
with the effective date produced by `extractEffectiveDate`. -/
def extractMetadata (now : Nat) (filename : String) (fileSize : Nat) (fileType : String)
    (text : String) (rx : RegexExtraction) : DocumentMetadata :=
  if text ≠ "" && 0 < (pyStrip text).length then
    { filename := filename, file_size := fileSize, file_type := fileType
      upload_date := some now
      agreement_type := rx.agreement_type
      jurisdiction := rx.jurisdiction
      industry := rx.industry
      geography := rx.geography
      governing_law := rx.governing_law
      parties := rx.parties
      effective_date := extractEffectiveDate now rx.dateMatch
      expiration_date := none
      value := rx.value
      currency := rx.currency }
  else
    { filename := filename, file_size := fileSize, file_type := fileType
      upload_date := some now
      agreement_type := none, jurisdiction := none, industry := none
      geography := none, governing_law := none, parties := []
      effective_date := none, expiration_date := none
      value := none, currency := none }

/-- One entry of the per-tier risk breakdown built by
`AIAnalyzer.generate_dashboard_insights`. -/
structure RiskBreakdownEntry where
  filename : String
  confidence : ℚ
  summary : Option String
deriving DecidableEq

/-- One entry of the `recent_uploads` list built by
`AIAnalyzer.generate_dashboard_insights`. -/
structure RecentUpload where
  filename : String
  agreement_type : Option String
  jurisdiction : Option String
  industry : Option String
  upload_date : Option Nat
deriving DecidableEq

/-- The dashboard dict built by `AIAnalyzer.generate_dashboard_insights`
(`date_range` split into its `start`/`end` fields; the constant-valued fields
`trends_over_time`, `compliance_metrics`, `risk_analysis.percentages` and
`ai_insights_summary` are omitted). -/
structure DashboardData where
  agreement_types : List (String × Nat)
  jurisdictions : List (String × Nat)
  industries : List (String × Nat)
  geographies : List (String × Nat)
  total_documents : Nat
  total_value : Option ℚ
  date_range_start : Option Nat
  date_range_end : Option Nat
  recent_uploads : List RecentUpload
  risk_distribution : List (String × Nat)
  risk_breakdown : List (String × List RiskBreakdownEntry)
  risk_total_assessed : Nat
  average_confidence : ℚ
  processing_success_rate : ℚ
  metadata_completeness : ℚ
  low_confidence : Nat
  medium_confidence : Nat
  high_confidence : Nat
  confidence_breakdown_low : List String
  confidence_breakdown_medium : List String
  confidence_breakdown_high : List String
deriving DecidableEq

/-- The summary truncation of the risk breakdown:
`summary[:100] + "..."` when a truthy summary exceeds 100 characters. -/
def truncateSummary : Option String → Option String
  | some s => if s ≠ "" && 100 < s.length then some (String.mk (s.data.take 100) ++ "...") else some s
  | none => none

/-- Append an entry to one tier's list in the risk breakdown map. -/
def pushBreakdown (m : List (String × List RiskBreakdownEntry)) (k : String)
    (e : RiskBreakdownEntry) : List (String × List RiskBreakdownEntry) :=
  m.map (fun p => if p.1 == k then (p.1, p.2 ++ [e]) else p)

/-- Descending comparison on optional timestamps for the `recent_uploads`
sort (every document carries an upload date in practice, so the `none` cases
are unreachable defaults). -/
def uploadDateGe (a b : RecentUpload) : Bool :=
  match a.upload_date, b.upload_date with
  | some x, some y => decide (y ≤ x)
  | some _, none => true
  | none, _ => false


set_option maxHeartbeats 1000000 in
/-- `AIAnalyzer.generate_dashboard_insights` of `app/services/ai_analyzer.py`. -/
def generateDashboardInsights (documents : List Document) : DashboardData :=
  let agreement_types : List (String × Nat) := documents.foldl (fun m d =>
    match d.metadata.agreement_type with
    | some a => bumpCount m a.value
    | none => m) []
  let jurisdictions : List (String × Nat) := documents.foldl (fun m d =>
    match d.metadata.jurisdiction with
    | some j => bumpCount m j.value
    | none => m) []
  let industries : List (String × Nat) := documents.foldl (fun m d =>
    match d.metadata.industry with
    | some i => bumpCount m i.value
    | none => m) []
  let geographies : List (String × Nat) := documents.foldl (fun m d =>
    match d.metadata.geography with
    | some g => bumpCount m g.value
    | none => m) []
  let total_value : ℚ := documents.foldl (fun acc d =>
    match d.metadata.value with
    | some v => if v ≠ 0 then acc + v else acc
    | none => acc) (0 : ℚ)
  let recent_uploads : List RecentUpload := sortDescBy uploadDateGe ((documents.take 10).map (fun d =>
    { filename := d.metadata.filename
      agreement_type := d.metadata.agreement_type.map AgreementType.value
      jurisdiction := d.metadata.jurisdiction.map Jurisdiction.value
      industry := d.metadata.industry.map Industry.value
      upload_date := d.metadata.upload_date }))
  let dates : List Nat := documents.filterMap (fun d => d.metadata.upload_date)
  let date_range_start : Option Nat := match dates with
    | [] => none
    | x :: xs => some (xs.foldl Nat.min x)
  let date_range_end : Option Nat := match dates with
    | [] => none
    | x :: xs => some (xs.foldl Nat.max x)
  let confidence_scores : List ℚ := documents.filterMap (fun d => d.confidence_score)
  let average_confidence : ℚ :=
    if confidence_scores.isEmpty then 0
    else confidence_scores.sum / (confidence_scores.length : ℚ)
  let processing_success : Nat := (documents.filter (fun d => d.processing_status ≠ "error")).length
  let processing_success_rate : ℚ :=
    if documents.isEmpty then 100
    else (processing_success : ℚ) / (documents.length : ℚ) * 100
  let metadata_complete : Nat := (documents.filter (fun d =>
    d.metadata.agreement_type.isSome || d.metadata.jurisdiction.isSome
      || d.metadata.industry.isSome)).length
  let metadata_completeness : ℚ :=
    if documents.isEmpty then 0
    else (metadata_complete : ℚ) / (documents.length : ℚ) * 100
  let risk_distribution : List (String × Nat) := documents.foldl (fun m d =>
    match d.ai_insights.bind (fun i => i.risk_assessment) with
    | some r => bumpCount m r.upperValue
    | none => m) [("LOW", 0), ("MEDIUM", 0), ("HIGH", 0), ("CRITICAL", 0)]
  let risk_breakdown : List (String × List RiskBreakdownEntry) := documents.foldl (fun m d =>
    match d.ai_insights with
    | some ins =>
      match ins.risk_assessment with
      | some r =>
        pushBreakdown m r.upperValue
          { filename := d.metadata.filename
            confidence := ins.confidence_score
            summary := truncateSummary ins.summary }
      | none => m
    | none => m)
    [("LOW", []), ("MEDIUM", []), ("HIGH", []), ("CRITICAL", [])]
  let withConf : List (Document × ℚ) := documents.filterMap (fun d => d.confidence_score.map (fun c => (d, c)))
  let lowDocs : List (Document × ℚ) := withConf.filter (fun p => decide (p.2 ≤ 0.4))
  let medDocs : List (Document × ℚ) := withConf.filter (fun p => decide (0.4 < p.2 ∧ p.2 ≤ 0.7))
  let highDocs : List (Document × ℚ) := withConf.filter (fun p => decide (0.7 < p.2))
  { agreement_types := agreement_types
    jurisdictions := jurisdictions
    industries := industries
    geographies := geographies
    total_documents := documents.length
    total_value := if 0 < total_value then some total_value else none
    date_range_start := date_range_start
    date_range_end := date_range_end
    recent_uploads := recent_uploads
    risk_distribution := risk_distribution
    risk_breakdown := risk_breakdown
    risk_total_assessed := documents.length
    average_confidence := average_confidence
    processing_success_rate := processing_success_rate
    metadata_completeness := metadata_completeness
    low_confidence := lowDocs.length
    medium_confidence := medDocs.length
    high_confidence := highDocs.length
    confidence_breakdown_low := lowDocs.map (fun p => p.1.metadata.filename)
    confidence_breakdown_medium := medDocs.map (fun p => p.1.metadata.filename)
    confidence_breakdown_high := highDocs.map (fun p => p.1.metadata.filename) }

/-- A metadata record with all classification fields unset. -/
def baseMetadata : DocumentMetadata :=
  { filename := "doc.pdf", file_size := 0, file_type := ".pdf"
    upload_date := some 1700000000
    agreement_type := none, jurisdiction := none, industry := none, geography := none
    governing_law := none, parties := [], effective_date := none, expiration_date := none
    value := none, currency := none }

/-- A corpus document classified `agreement_type = NDA` and nothing else. -/
def ndaDoc : Document :=
  { id := "doc-nda"
    metadata := { baseMetadata with filename := "nda.pdf", agreement_type := some AgreementType.NDA }
    extracted_text := "", processing_status := "completed", created_at := 0, updated_at := 0
    ai_insights := none, confidence_score := none, processing_errors := [] }

/-- A corpus document classified `agreement_type = MSA` and nothing else. -/
def msaDoc : Document :=
  { id := "doc-msa"
    metadata := { baseMetadata with filename := "msa.pdf", agreement_type := some AgreementType.MSA }
    extracted_text := "", processing_status := "completed", created_at := 0, updated_at := 0
    ai_insights := none, confidence_score := none, processing_errors := [] }

/-- A document with every classification dimension unset. -/
def emptyDoc : Document :=
  { id := "doc-plain", metadata := baseMetadata
    extracted_text := "", processing_status := "completed", created_at := 0, updated_at := 0
    ai_insights := none, confidence_score := none, processing_errors := [] }

/-- The analysis `QueryService._analyze_enhanced_query` produces for the
question "show NDA agreements": the third `agreement_type` pattern
captures "nda", no analysis / comparison / summary keyword occurs, and the
confidence is 0.3 + 0.3 (entities) + 0.2 (non-general intent). -/
def qaNDA : QueryAnalysis :=
  { intent := "agreement_type", entities := ["nda"], confidence := 0.8
    comparison_requested := false, analysis_requested := false, summary_requested := false }

/-- A query analysis with no captured entities and the `general_search`
intent: the ranker's fast-path configuration. -/
def qaGeneral : QueryAnalysis :=
  { intent := "general_search", entities := [], confidence := 0.3
    comparison_requested := false, analysis_requested := false, summary_requested := false }

/-- Regex-extraction results for a text whose only hit is an effective-date
pattern match (for example a text containing "effective date: 01/01/2024"). -/
def rxWithDate : RegexExtraction :=
  { agreement_type := none, jurisdiction := none, industry := none, geography := none
    governing_law := none, parties := [], dateMatch := some "01/01/2024"
    value := none, currency := none }

/-- The risk value used by the comparison builder: `ai_insights.risk_assessment`
guarded by the Python truthiness of `ai_insights` itself, as in the source's
`[... for doc in documents if doc.ai_insights and doc.ai_insights.risk_assessment]`. -/
def riskOf (d : Document) : Option RiskLevel :=
  d.ai_insights.bind (fun i => i.risk_assessment)

/-- The agreement-type similarity sentence of `QueryService._find_similarities`. -/
def agreementStmt (s : String) : String :=
  "All documents are " ++ s ++ " agreements"

/-- The jurisdiction similarity sentence of `QueryService._find_similarities`. -/
def jurisdictionStmt (s : String) : String :=
  "All documents are governed by " ++ s ++ " law"

/-- The industry similarity sentence of `QueryService._find_similarities`. -/
def industryStmt (s : String) : String :=
  "All documents are in the " ++ s ++ " industry"

/-- The risk-level similarity sentence of `QueryService._find_similarities`. -/
def riskStmt (s : String) : String :=
  "All documents have " ++ s ++ " risk level"

/-- One guarded block of `QueryService._find_similarities`: the sentence for
the first value when the distinct values number exactly one, else nothing. -/
def blockOf (vs : List String) (stmt : String → String) : List String :=
  if vs.dedup.length == 1 then [stmt (vs.headD "")] else []

theorem lengthBonus_nonneg (wc : Nat) : 0 ≤ lengthBonus wc := by
  unfold lengthBonus; split_ifs <;> norm_num

theorem keyTermBonus_nonneg (k : Nat) : 0 ≤ keyTermBonus k := by
  unfold keyTermBonus; split_ifs <;> norm_num

theorem legalIndicatorBonus_nonneg (c : Nat) : 0 ≤ legalIndicatorBonus c := by
  unfold legalIndicatorBonus; split_ifs <;> norm_num

theorem businessIndicatorBonus_nonneg (c : Nat) : 0 ≤ businessIndicatorBonus c := by
  unfold businessIndicatorBonus; split_ifs <;> norm_num

theorem structureBonus_nonneg (dots newlines : Nat) : 0 ≤ structureBonus dots newlines := by
  unfold structureBonus; split_ifs <;> norm_num

theorem sentenceLengthBonus_nonneg (a : ℚ) : 0 ≤ sentenceLengthBonus a := by
  unfold sentenceLengthBonus; split_ifs <;> norm_num

theorem complexTermBonus_nonneg (c : Nat) : 0 ≤ complexTermBonus c := by
  unfold complexTermBonus; split_ifs <;> norm_num

theorem mem_insertDescBy {α : Type} (ge : α → α → Bool) (x a : α) :
    ∀ l : List α, a ∈ insertDescBy ge x l → a = x ∨ a ∈ l := by
  intro l
  induction l with
  | nil =>
    intro h
    simp only [insertDescBy, List.mem_singleton] at h
    exact Or.inl h
  | cons y ys ih =>
    intro h
    rw [insertDescBy] at h
    split_ifs at h with hge
    · rcases List.mem_cons.mp h with h1 | h2
      · exact Or.inl h1
      · exact Or.inr h2
    · rcases List.mem_cons.mp h with h1 | h2
      · exact Or.inr (by rw [h1]; exact List.mem_cons_self y ys)
      · rcases ih h2 with h3 | h4
        · exact Or.inl h3
        · exact Or.inr (List.mem_cons_of_mem y h4)

theorem mem_sortDescBy {α : Type} (ge : α → α → Bool) (a : α) :
    ∀ l : List α, a ∈ sortDescBy ge l → a ∈ l := by
  intro l
  induction l with
  | nil => intro h; rw [sortDescBy] at h; exact h
  | cons x xs ih =>
    intro h
    rw [sortDescBy] at h
    rcases mem_insertDescBy ge x a _ h with h1 | h2
    · rw [h1]; exact List.mem_cons_self x xs
    · exact List.mem_cons_of_mem x (ih h2)

theorem dedup_eq_singleton_of_all_eq :
    ∀ (l : List String) (s : String), s ∈ l → (∀ x ∈ l, x = s) → l.dedup = [s] := by
  intro l
  induction l with
  | nil => intro s hs _; cases hs
  | cons a t ih =>
    intro s _ hall
    have ha : a = s := hall a (List.mem_cons_self a t)
    by_cases ht : t = []
    · subst ht
      rw [List.dedup_cons_of_not_mem (by simp), List.dedup_nil, ha]
    · have hst : s ∈ t := by
        obtain ⟨b, hb⟩ := List.exists_mem_of_ne_nil t ht
        have hbs := hall b (List.mem_cons_of_mem _ hb)
        rwa [hbs] at hb
      have hat : a ∈ t := by rwa [ha]
      rw [List.dedup_cons_of_mem hat]
      exact ih s hst (fun x hx => hall x (List.mem_cons_of_mem _ hx))

theorem headD_of_all_eq (l : List String) (s : String) (hmem : s ∈ l)
    (hall : ∀ x ∈ l, x = s) : l.headD "" = s := by
  cases l with
  | nil => cases hmem
  | cons a t => simpa using hall a (List.mem_cons_self a t)

theorem scoredRanking_length_le (q : String) (qa : QueryAnalysis) (docs : List Document) :
    (scoredRanking q qa docs).length ≤ 30 := by
  simp only [scoredRanking, List.length_map, List.length_take]
  omega

theorem scoredRanking_mem_pos (q : String) (qa : QueryAnalysis) (docs : List Document)
    (d : Document) (hd : d ∈ scoredRanking q qa docs) : 0 < docScore q qa d := by
  simp only [scoredRanking] at hd
  rw [List.mem_map] at hd
  obtain ⟨p, hp, rfl⟩ := hd
  have hp1 := List.take_subset _ _ hp
  have hp2 := mem_sortDescBy _ p _ hp1
  rw [List.mem_filterMap] at hp2
  obtain ⟨doc, _, he⟩ := hp2
  split_ifs at he with hpos
  injection he with he'
  rw [← he']
  exact hpos

/-- Claim C1: for every input text, the heuristic scorer buckets risk by
normalizing each tier's regex-match count to `rate = count * 100 / wordCount`
(rate 0 when the word count is 0, with no division) and returning HIGH when
the high rate exceeds 3.0, else MEDIUM when the medium rate exceeds 2.0 or the
high rate exceeds 1.5, else LOW. The hypothesis records reachability: the
word-boundary regex patterns cannot match a text with zero words, so a
zero-word text has zero match counts. -/
theorem risk_bucketing (h m l w : Nat) (hw : w = 0 → h = 0 ∧ m = 0) :
    assessRiskLevel h m l w = riskBucketSpec h m w := by
  rcases Nat.eq_zero_or_pos w with h0 | hpos
  · obtain ⟨hh, hm⟩ := hw h0
    subst h0; subst hh; subst hm
    norm_num [assessRiskLevel, riskBucketSpec]
  · have hw0 : ¬ w = 0 := hpos.ne'
    simp only [assessRiskLevel, riskBucketSpec, if_pos hpos, if_neg hw0, mul_div_assoc]

/-- Witness for `risk_bucketing`: the spec's own scenario, 4 high-tier matches
in a 100-word text, rate 4.0 > 3.0, bucketed HIGH by both formulations. -/
theorem risk_bucketing_witness :
    (100 = 0 → 4 = 0 ∧ 0 = 0) ∧ assessRiskLevel 4 0 0 100 = riskBucketSpec 4 0 100
      ∧ assessRiskLevel 4 0 0 100 = RiskLevel.HIGH :=
  ⟨by omega, risk_bucketing 4 0 0 100 (by omega), by norm_num [assessRiskLevel]⟩

/-- Claim C2: the claimed +4 risk-tier and +4 compliance-tier alignment
bonuses of the scored ranking path are never awarded: the source compares
`risk_assessment.value` (one of "Low"/"Medium"/"High"/"Critical") against the
literals "HIGH"/"LOW"/"MEDIUM", and `compliance_status.value` (one of
"Compliant"/"Non-Compliant"/"Pending Review"/"Requires Action") against
"COMPLIANT"/"NON_COMPLIANT"/"PENDING_REVIEW", none of which can ever be equal,
so both bonus terms are 0 for every question and every insight record. -/
theorem risk_compliance_bonus_dead (q : String) (ins : AIInsights) :
    riskTierBonus q ins = 0 ∧ complianceTierBonus q ins = 0 := by
  constructor
  · rcases hr : ins.risk_assessment with _ | r
    · simp [riskTierBonus, hr]
    · cases r <;> simp +decide [riskTierBonus, hr, RiskLevel.value]
  · rcases hc : ins.compliance_status with _ | c
    · simp [complianceTierBonus, hc]
    · cases c <;> simp +decide [complianceTierBonus, hc, ComplianceStatus.value]

/-- Claim C3, counterexample: for the query "show NDA agreements" over one NDA
and one MSA document, the MSA document does not score 0 and is not dropped —
the generic-term fallback awards it 2 points ("msa" is a substring of its own
lowered label), so it appears in the ranker's output. -/
theorem nda_msa_query_counterexample :
    msaDoc ∈ filterDocumentsEnhanced "show NDA agreements" [ndaDoc, msaDoc] qaNDA none ∧
    docScore "show NDA agreements" qaNDA msaDoc = 2 ∧
    filterDocumentsEnhanced "show NDA agreements" [ndaDoc, msaDoc] qaNDA none ≠ [ndaDoc] := by
  refine ⟨?_, ?_, ?_⟩
  · simp +decide [filterDocumentsEnhanced, fastPathCond, preFilter, scoredRanking,
      sortDescBy, insertDescBy, docScore, metadataScore, contentScore, aiScore,
      textScore, intentScore, ndaDoc, msaDoc, baseMetadata, qaNDA, AgreementType.value]
  · simp +decide [docScore, metadataScore, contentScore, aiScore, textScore,
      intentScore, msaDoc, baseMetadata, qaNDA, AgreementType.value]
  · intro hcontra
    have : msaDoc ∈ filterDocumentsEnhanced "show NDA agreements" [ndaDoc, msaDoc] qaNDA none := by
      simp +decide [filterDocumentsEnhanced, fastPathCond, preFilter, scoredRanking,
        sortDescBy, insertDescBy, docScore, metadataScore, contentScore, aiScore,
        textScore, intentScore, ndaDoc, msaDoc, baseMetadata, qaNDA, AgreementType.value]
    rw [hcontra] at this
    simp +decide [ndaDoc, msaDoc, baseMetadata] at this

/-- Claim C3, amended: the ranker returns both documents, the NDA document
first with score 8 (exact label containment) and the MSA document second with
score 2 (generic-term fallback); the MSA document is not dropped. -/
theorem nda_msa_query_result :
    filterDocumentsEnhanced "show NDA agreements" [ndaDoc, msaDoc] qaNDA none = [ndaDoc, msaDoc] ∧
    docScore "show NDA agreements" qaNDA ndaDoc = 8 := by
  constructor
  · simp +decide [filterDocumentsEnhanced, fastPathCond, preFilter, scoredRanking,
      sortDescBy, insertDescBy, docScore, metadataScore, contentScore, aiScore,
      textScore, intentScore, ndaDoc, msaDoc, baseMetadata, qaNDA, AgreementType.value]
  · simp +decide [docScore, metadataScore, contentScore, aiScore, textScore,
      intentScore, ndaDoc, baseMetadata, qaNDA, AgreementType.value]

/-- Claim C4, counterexample: a two-document group where one member is
classified NDA and the other has the agreement-type dimension unset still
yields the agreement-type similarity statement — the comparison builder drops
unset members before checking `len(set(...)) == 1`. -/
theorem partial_group_similarity_counterexample :
    findSimilarities [ndaDoc, emptyDoc] = ["All documents are NDA agreements"] := by
  decide

theorem mem_blockOf {x : String} {vs : List String} {stmt : String → String} :
    x ∈ blockOf vs stmt ↔ (vs.dedup.length == 1) = true ∧ x = stmt (vs.headD "") := by
  unfold blockOf
  split_ifs with h
  · simp [h]
  · simp [h]

theorem find_similarities_eq_blocks (docs : List Document) :
    findSimilarities docs =
      blockOf (agreementValues docs) agreementStmt
        ++ blockOf (jurisdictionValues docs) jurisdictionStmt
        ++ blockOf (industryValues docs) industryStmt
        ++ blockOf (riskValues docs) riskStmt := rfl

theorem values_cond_spec (vs : List String) (h : (vs.dedup.length == 1) = true) :
    ∃ s, vs.headD "" = s ∧ s ∈ vs ∧ ∀ x ∈ vs, x = s := by
  have h1 : vs.dedup.length = 1 := by simpa using h
  obtain ⟨s, hs⟩ := List.length_eq_one.mp h1
  refine ⟨s, ?_, ?_, ?_⟩
  · cases vs with
    | nil => simp at hs
    | cons a t =>
      have ham : a ∈ (a :: t).dedup := List.mem_dedup.mpr (List.mem_cons_self a t)
      rw [hs] at ham
      simpa using ham
  · exact List.mem_dedup.mp (by rw [hs]; exact List.mem_cons_self s [])
  · intro x hx
    have hxd : x ∈ vs.dedup := List.mem_dedup.mpr hx
    rw [hs] at hxd
    simpa using hxd

theorem headD_val {E : Type} (docs : List Document) (proj : Document → Option E)
    (val : E → String)
    (h : ((docs.filterMap (fun d => (proj d).map val)).dedup.length == 1) = true) :
    ∃ a : E, (docs.filterMap (fun d => (proj d).map val)).headD "" = val a := by
  obtain ⟨s, hh, hmem, -⟩ := values_cond_spec _ h
  obtain ⟨d, -, hpd⟩ := List.mem_filterMap.mp hmem
  rw [Option.map_eq_some'] at hpd
  obtain ⟨a, -, hav⟩ := hpd
  exact ⟨a, by rw [hh, ← hav]⟩

theorem dim_cond_iff {E : Type} (docs : List Document) (proj : Document → Option E)
    (val : E → String) (vinj : ∀ a b : E, val a = val b → a = b) (v : E) :
    (((docs.filterMap (fun d => (proj d).map val)).dedup.length == 1) = true
        ∧ (docs.filterMap (fun d => (proj d).map val)).headD "" = val v)
      ↔ ((∃ d ∈ docs, proj d = some v)
        ∧ (∀ d ∈ docs, proj d = none ∨ proj d = some v)) := by
  constructor
  · rintro ⟨hc, hh⟩
    obtain ⟨s, hs_head, hs_mem, hs_all⟩ := values_cond_spec _ hc
    have hsv : s = val v := by rw [← hs_head, hh]
    constructor
    · obtain ⟨d, hd, hpd⟩ := List.mem_filterMap.mp hs_mem
      rw [Option.map_eq_some'] at hpd
      obtain ⟨a, ha, hav⟩ := hpd
      have hv : a = v := vinj a v (by rw [hav, hsv])
      exact ⟨d, hd, by rw [ha, hv]⟩
    · intro d hd
      cases hpd : proj d with
      | none => exact Or.inl rfl
      | some a =>
        refine Or.inr ?_
        have hmem2 : val a ∈ docs.filterMap (fun x => (proj x).map val) :=
          List.mem_filterMap.mpr ⟨d, hd, by rw [hpd]; rfl⟩
        have hva : a = v := vinj a v (by rw [hs_all _ hmem2, hsv])
        rw [hva]
  · rintro ⟨⟨d, hd, hpd⟩, hall⟩
    have hmem : val v ∈ docs.filterMap (fun x => (proj x).map val) :=
      List.mem_filterMap.mpr ⟨d, hd, by rw [hpd]; rfl⟩
    have hallv : ∀ x ∈ docs.filterMap (fun x => (proj x).map val), x = val v := by
      intro x hx
      obtain ⟨d', hd', hpd'⟩ := List.mem_filterMap.mp hx
      rcases hall d' hd' with h0 | h1
      · rw [h0] at hpd'; exact absurd hpd' (by simp)
      · rw [h1] at hpd'
        simpa using hpd'.symm
    refine ⟨?_, headD_of_all_eq _ _ hmem hallv⟩
    have hd1 := dedup_eq_singleton_of_all_eq _ _ hmem hallv
    simp [hd1]

theorem agreementValue_inj : ∀ a b : AgreementType, a.value = b.value → a = b := by decide

theorem jurisdictionValue_inj : ∀ a b : Jurisdiction, a.value = b.value → a = b := by decide

theorem industryValue_inj : ∀ a b : Industry, a.value = b.value → a = b := by decide

theorem riskValue_inj : ∀ a b : RiskLevel, a.value = b.value → a = b := by decide

theorem agreementStmt_inj :
    ∀ a b : AgreementType, agreementStmt a.value = agreementStmt b.value → a = b := by decide

theorem jurisdictionStmt_inj :
    ∀ a b : Jurisdiction, jurisdictionStmt a.value = jurisdictionStmt b.value → a = b := by decide

theorem industryStmt_inj :
    ∀ a b : Industry, industryStmt a.value = industryStmt b.value → a = b := by decide

theorem riskStmt_inj :
    ∀ a b : RiskLevel, riskStmt a.value = riskStmt b.value → a = b := by decide

theorem agreementStmt_ne_jurisdictionStmt :
    ∀ (a : AgreementType) (b : Jurisdiction), agreementStmt a.value ≠ jurisdictionStmt b.value := by
  decide

theorem agreementStmt_ne_industryStmt :
    ∀ (a : AgreementType) (b : Industry), agreementStmt a.value ≠ industryStmt b.value := by
  decide

theorem agreementStmt_ne_riskStmt :
    ∀ (a : AgreementType) (b : RiskLevel), agreementStmt a.value ≠ riskStmt b.value := by
  decide

theorem jurisdictionStmt_ne_industryStmt :
    ∀ (a : Jurisdiction) (b : Industry), jurisdictionStmt a.value ≠ industryStmt b.value := by
  decide

theorem jurisdictionStmt_ne_riskStmt :
    ∀ (a : Jurisdiction) (b : RiskLevel), jurisdictionStmt a.value ≠ riskStmt b.value := by
  decide

theorem industryStmt_ne_riskStmt :
    ∀ (a : Industry) (b : RiskLevel), industryStmt a.value ≠ riskStmt b.value := by
  decide

theorem agreement_headD_val (docs : List Document)
    (h : ((agreementValues docs).dedup.length == 1) = true) :
    ∃ a : AgreementType, (agreementValues docs).headD "" = a.value :=
  headD_val docs (fun d => d.metadata.agreement_type) AgreementType.value h

theorem jurisdiction_headD_val (docs : List Document)
    (h : ((jurisdictionValues docs).dedup.length == 1) = true) :
    ∃ a : Jurisdiction, (jurisdictionValues docs).headD "" = a.value :=
  headD_val docs (fun d => d.metadata.jurisdiction) Jurisdiction.value h

theorem industry_headD_val (docs : List Document)
    (h : ((industryValues docs).dedup.length == 1) = true) :
    ∃ a : Industry, (industryValues docs).headD "" = a.value :=
  headD_val docs (fun d => d.metadata.industry) Industry.value h

theorem risk_headD_val (docs : List Document)
    (h : ((riskValues docs).dedup.length == 1) = true) :
    ∃ a : RiskLevel, (riskValues docs).headD "" = a.value :=
  headD_val docs riskOf RiskLevel.value h

theorem agreement_cond_iff (docs : List Document) (v : AgreementType) :
    (((agreementValues docs).dedup.length == 1) = true
        ∧ (agreementValues docs).headD "" = v.value)
      ↔ ((∃ d ∈ docs, d.metadata.agreement_type = some v)
        ∧ (∀ d ∈ docs, d.metadata.agreement_type = none ∨ d.metadata.agreement_type = some v)) :=
  dim_cond_iff docs (fun d => d.metadata.agreement_type) AgreementType.value agreementValue_inj v

theorem jurisdiction_cond_iff (docs : List Document) (v : Jurisdiction) :
    (((jurisdictionValues docs).dedup.length == 1) = true
        ∧ (jurisdictionValues docs).headD "" = v.value)
      ↔ ((∃ d ∈ docs, d.metadata.jurisdiction = some v)
        ∧ (∀ d ∈ docs, d.metadata.jurisdiction = none ∨ d.metadata.jurisdiction = some v)) :=
  dim_cond_iff docs (fun d => d.metadata.jurisdiction) Jurisdiction.value jurisdictionValue_inj v

theorem industry_cond_iff (docs : List Document) (v : Industry) :
    (((industryValues docs).dedup.length == 1) = true
        ∧ (industryValues docs).headD "" = v.value)
      ↔ ((∃ d ∈ docs, d.metadata.industry = some v)
        ∧ (∀ d ∈ docs, d.metadata.industry = none ∨ d.metadata.industry = some v)) :=
  dim_cond_iff docs (fun d => d.metadata.industry) Industry.value industryValue_inj v

theorem risk_cond_iff (docs : List Document) (v : RiskLevel) :
    (((riskValues docs).dedup.length == 1) = true
        ∧ (riskValues docs).headD "" = v.value)
      ↔ ((∃ d ∈ docs, riskOf d = some v) ∧ (∀ d ∈ docs, riskOf d = none ∨ riskOf d = some v)) :=
  dim_cond_iff docs riskOf RiskLevel.value riskValue_inj v

/-- Claim C4, amended: for each of the four dimensions (agreement type,
jurisdiction, industry, risk tier) and each value `v` of that dimension, the
dimension's similarity statement for `v` is emitted exactly when at least one
group member has the dimension set to `v` and every member either has the
dimension unset or set to `v` — members with the dimension unset are ignored,
so a group where some members have the dimension unset and the rest share one
value does yield the similarity statement for that dimension. -/
theorem find_similarities_iff (docs : List Document) :
    (∀ v : AgreementType,
       agreementStmt v.value ∈ findSimilarities docs ↔
         (∃ d ∈ docs, d.metadata.agreement_type = some v)
           ∧ (∀ d ∈ docs, d.metadata.agreement_type = none
                ∨ d.metadata.agreement_type = some v))
  ∧ (∀ v : Jurisdiction,
       jurisdictionStmt v.value ∈ findSimilarities docs ↔
         (∃ d ∈ docs, d.metadata.jurisdiction = some v)
           ∧ (∀ d ∈ docs, d.metadata.jurisdiction = none
                ∨ d.metadata.jurisdiction = some v))
  ∧ (∀ v : Industry,
       industryStmt v.value ∈ findSimilarities docs ↔
         (∃ d ∈ docs, d.metadata.industry = some v)
           ∧ (∀ d ∈ docs, d.metadata.industry = none ∨ d.metadata.industry = some v))
  ∧ (∀ v : RiskLevel,
       riskStmt v.value ∈ findSimilarities docs ↔
         (∃ d ∈ docs, riskOf d = some v)
           ∧ (∀ d ∈ docs, riskOf d = none ∨ riskOf d = some v)) := by
  refine ⟨?_, ?_, ?_, ?_⟩
  · intro v
    rw [find_similarities_eq_blocks]
    simp only [List.mem_append, mem_blockOf]
    constructor
    · rintro (((⟨hc, he⟩ | ⟨hc, he⟩) | ⟨hc, he⟩) | ⟨hc, he⟩)
      · obtain ⟨a, ha⟩ := agreement_headD_val docs hc
        rw [ha] at he
        rw [← agreementStmt_inj v a he] at ha
        exact (agreement_cond_iff docs v).mp ⟨hc, ha⟩
      · obtain ⟨b, hb⟩ := jurisdiction_headD_val docs hc
        rw [hb] at he
        exact absurd he (agreementStmt_ne_jurisdictionStmt v b)
      · obtain ⟨b, hb⟩ := industry_headD_val docs hc
        rw [hb] at he
        exact absurd he (agreementStmt_ne_industryStmt v b)
      · obtain ⟨b, hb⟩ := risk_headD_val docs hc
        rw [hb] at he
        exact absurd he (agreementStmt_ne_riskStmt v b)
    · rintro ⟨hex, hall⟩
      have h2 := (agreement_cond_iff docs v).mpr ⟨hex, hall⟩
      exact Or.inl (Or.inl (Or.inl ⟨h2.1, by rw [h2.2]⟩))
  · intro v
    rw [find_similarities_eq_blocks]
    simp only [List.mem_append, mem_blockOf]
    constructor
    · rintro (((⟨hc, he⟩ | ⟨hc, he⟩) | ⟨hc, he⟩) | ⟨hc, he⟩)
      · obtain ⟨b, hb⟩ := agreement_headD_val docs hc
        rw [hb] at he
        exact absurd he.symm (agreementStmt_ne_jurisdictionStmt b v)
      · obtain ⟨a, ha⟩ := jurisdiction_headD_val docs hc
        rw [ha] at he
        rw [← jurisdictionStmt_inj v a he] at ha
        exact (jurisdiction_cond_iff docs v).mp ⟨hc, ha⟩
      · obtain ⟨b, hb⟩ := industry_headD_val docs hc
        rw [hb] at he
        exact absurd he (jurisdictionStmt_ne_industryStmt v b)
      · obtain ⟨b, hb⟩ := risk_headD_val docs hc
        rw [hb] at he
        exact absurd he (jurisdictionStmt_ne_riskStmt v b)
    · rintro ⟨hex, hall⟩
      have h2 := (jurisdiction_cond_iff docs v).mpr ⟨hex, hall⟩
      exact Or.inl (Or.inl (Or.inr ⟨h2.1, by rw [h2.2]⟩))
  · intro v
    rw [find_similarities_eq_blocks]
    simp only [List.mem_append, mem_blockOf]
    constructor
    · rintro (((⟨hc, he⟩ | ⟨hc, he⟩) | ⟨hc, he⟩) | ⟨hc, he⟩)
      · obtain ⟨b, hb⟩ := agreement_headD_val docs hc
        rw [hb] at he
        exact absurd he.symm (agreementStmt_ne_industryStmt b v)
      · obtain ⟨b, hb⟩ := jurisdiction_headD_val docs hc
        rw [hb] at he
        exact absurd he.symm (jurisdictionStmt_ne_industryStmt b v)
      · obtain ⟨a, ha⟩ := industry_headD_val docs hc
        rw [ha] at he
        rw [← industryStmt_inj v a he] at ha
        exact (industry_cond_iff docs v).mp ⟨hc, ha⟩
      · obtain ⟨b, hb⟩ := risk_headD_val docs hc
        rw [hb] at he
        exact absurd he (industryStmt_ne_riskStmt v b)
    · rintro ⟨hex, hall⟩
      have h2 := (industry_cond_iff docs v).mpr ⟨hex, hall⟩
      exact Or.inl (Or.inr ⟨h2.1, by rw [h2.2]⟩)
  · intro v
    rw [find_similarities_eq_blocks]
    simp only [List.mem_append, mem_blockOf]
    constructor
    · rintro (((⟨hc, he⟩ | ⟨hc, he⟩) | ⟨hc, he⟩) | ⟨hc, he⟩)
      · obtain ⟨b, hb⟩ := agreement_headD_val docs hc
        rw [hb] at he
        exact absurd he.symm (agreementStmt_ne_riskStmt b v)
      · obtain ⟨b, hb⟩ := jurisdiction_headD_val docs hc
        rw [hb] at he
        exact absurd he.symm (jurisdictionStmt_ne_riskStmt b v)
      · obtain ⟨b, hb⟩ := industry_headD_val docs hc
        rw [hb] at he
        exact absurd he.symm (industryStmt_ne_riskStmt b v)
      · obtain ⟨a, ha⟩ := risk_headD_val docs hc
        rw [ha] at he
        rw [← riskStmt_inj v a he] at ha
        exact (risk_cond_iff docs v).mp ⟨hc, ha⟩
    · rintro ⟨hex, hall⟩
      have h2 := (risk_cond_iff docs v).mpr ⟨hex, hall⟩
      exact Or.inr ⟨h2.1, by rw [h2.2]⟩

/-- Witness for `find_similarities_iff`: instantiated at the concrete partial
group of the counterexample, the side conditions discharged by evaluation. -/
theorem find_similarities_iff_witness :
    agreementStmt AgreementType.NDA.value ∈ findSimilarities [ndaDoc, emptyDoc] :=
  ((find_similarities_iff [ndaDoc, emptyDoc]).1 AgreementType.NDA).mpr
    ⟨by decide, by decide⟩

/-- Claim C5: the metadata extractor is not deterministic. For a text whose
only pattern hit is an effective-date match (for example one containing
"effective date: 01/01/2024"), two runs of `_extract_metadata` at different
wall-clock instants return different `effective_date` values, because
`_extract_effective_date` binds the captured date string and then discards
it, returning `datetime.now()` instead. -/
theorem metadata_extraction_time_dependent :
    (extractMetadata 0 "nda.pdf" 100 ".pdf" "effective date: 01/01/2024" rxWithDate).effective_date
      ≠ (extractMetadata 1 "nda.pdf" 100 ".pdf" "effective date: 01/01/2024" rxWithDate).effective_date := by
  decide

/-- Claim C6: for every input text and key-term list, the heuristic confidence
score lies in [0, 0.95] — it is never negative and never exceeds 0.95 (in
particular it is never 1.0). -/
theorem confidence_bounds (text : String) (keyTerms : List String) :
    0 ≤ calculateConfidenceScore text keyTerms ∧
      calculateConfidenceScore text keyTerms ≤ 0.95 := by
  constructor
  · have h1 := lengthBonus_nonneg (pySplit text).length
    have h2 := keyTermBonus_nonneg keyTerms.length
    have h3 := legalIndicatorBonus_nonneg (countPresent legalIndicators (pyLower text))
    have h4 := businessIndicatorBonus_nonneg (countPresent businessIndicators (pyLower text))
    have h5 := structureBonus_nonneg (countChar text '.') (countChar text '\n')
    unfold calculateConfidenceScore
    apply le_min _ (by norm_num)
    linarith
  · exact min_le_right _ _

/-- Claim C7: the ranker returns at most 20 documents on the fast path (no
captured entities and `general_search` intent) and at most 30 on the scored
path, and every document in scored-path output has a strictly positive
additive relevance score (a score-0 document never appears). -/
theorem ranker_bounded (q : String) (docs : List Document) (qa : QueryAnalysis)
    (f : Option QueryFilters) :
    (fastPathCond qa = true → (filterDocumentsEnhanced q docs qa f).length ≤ 20) ∧
    (fastPathCond qa = false →
      (filterDocumentsEnhanced q docs qa f).length ≤ 30 ∧
      ∀ d ∈ filterDocumentsEnhanced q docs qa f, 0 < docScore q qa d) := by
  constructor
  · intro h
    unfold filterDocumentsEnhanced
    rw [if_pos h]
    exact List.length_take_le _ _
  · intro h
    have hcond : ¬ (fastPathCond qa = true) := by simp [h]
    unfold filterDocumentsEnhanced
    rw [if_neg hcond]
    exact ⟨scoredRanking_length_le _ _ _, fun d hd => scoredRanking_mem_pos _ _ _ _ hd⟩

/-- Witness for `ranker_bounded`: both path conditions discharged at concrete
inputs — a general search with no entities takes the fast path, the NDA query
takes the scored path. -/
theorem ranker_bounded_witness :
    (filterDocumentsEnhanced "show documents" [ndaDoc, msaDoc] qaGeneral none).length ≤ 20 ∧
    (filterDocumentsEnhanced "show NDA agreements" [ndaDoc, msaDoc] qaNDA none).length ≤ 30 :=
  ⟨(ranker_bounded "show documents" [ndaDoc, msaDoc] qaGeneral none).1 (by decide),
   ((ranker_bounded "show NDA agreements" [ndaDoc, msaDoc] qaNDA none).2 (by decide)).1⟩

/-- Claim C8, counterexample: when the insight generator's internal
computation fails, the scorer returns the fixed fallback bundle, but the
document's processing-error log is NOT appended to — here it stays empty —
so the fallback is not distinguishable via the error log (it is
distinguishable only by its fixed summary and key terms). -/
theorem scoring_fault_no_error_log :
    (enhanceDocument emptyDoc (Except.error "scoring failure")).ai_insights
        = some fallbackInsights ∧
    (enhanceDocument emptyDoc (Except.error "scoring failure")).processing_errors = [] :=
  ⟨rfl, rfl⟩

/-- Claim C8, amended: an internal exception while scoring never propagates —
the document comes back with the fixed fallback bundle (risk Low, compliance
Compliant, confidence 0.3) attached — but the document's processing-error
list is left exactly as it was: the except branch of
`_generate_basic_ai_insights` swallows the fault without recording it, and
`enhance_document`'s own error logging only runs for exceptions that escape
the generator. -/
theorem scoring_fault_fallback (d : Document) (e : String) :
    (enhanceDocument d (Except.error e)).ai_insights = some fallbackInsights ∧
    fallbackInsights.risk_assessment = some RiskLevel.LOW ∧
    fallbackInsights.compliance_status = some ComplianceStatus.COMPLIANT ∧
    fallbackInsights.confidence_score = 0.3 ∧
    (enhanceDocument d (Except.error e)).processing_errors = d.processing_errors :=
  ⟨rfl, rfl, rfl, rfl, rfl⟩

/-- Claim C9: aggregating an empty document collection yields 0 total
documents, empty count maps for every categorical dimension, a null/null date
range, and a processing-success rate of 100, with no error (the embedded
aggregator is a total function). -/
theorem dashboard_empty :
    (generateDashboardInsights []).total_documents = 0 ∧
    (generateDashboardInsights []).agreement_types = [] ∧
    (generateDashboardInsights []).jurisdictions = [] ∧
    (generateDashboardInsights []).industries = [] ∧
    (generateDashboardInsights []).geographies = [] ∧
    (generateDashboardInsights []).date_range_start = none ∧
    (generateDashboardInsights []).date_range_end = none ∧
    (generateDashboardInsights []).processing_success_rate = 100 := by
  refine ⟨by decide, by decide, by decide, by decide, by decide, by decide, by decide, by decide⟩

/-- Claim C10: for every input text (including the empty string), the
complexity score lies in [0.5, 1.0]: it starts from base 0.5, only
non-negative bonuses are added, and it is capped at 1.0, so it is never
below 0.5. -/
theorem complexity_bounds (text : String) :
    0.5 ≤ calculateComplexityScore text ∧ calculateComplexityScore text ≤ 1 := by
  constructor
  · have h1 := sentenceLengthBonus_nonneg (avgSentenceLength text)
    have h2 := complexTermBonus_nonneg (countPresent complexityLegalTerms text)
    unfold calculateComplexityScore
    apply le_min _ (by norm_num)
    linarith
  · exact min_le_right _ _
